import Mathlib

/-!
Shallow embedding of the tick loop of components/World/LevelManager.tsx
(the LevelManager useFrame body) together with the difficulty model and
the spawn planner it uses. Positions are JS numbers, modelled as rationals;
position[0] is the lane axis (x), position[1] the vertical axis (y) and
position[2] the forward axis (z). Entity ids are uuid strings in the
source, modelled as fresh natural numbers. Math.random() calls are
modelled by an explicit list of rolls consumed in call order.
-/

namespace BaseRunner

/-- The closed entity variant set, from the ObjectType enum in types. -/
inductive ObjType
  | OBSTACLE | GEM | LETTER | SHOP_PORTAL | ALIEN | MISSILE | MAGNET | SHIELD
  | DRONE | LASER_GATE | BARRIER | SPIKE_FLOOR | TURRET | JUMP_PAD | SPEED_BOOST
  deriving DecidableEq, Repr

/-- Game status enum from types. -/
inductive GameStatus
  | MENU | PLAYING | SHOP | GAME_OVER | VICTORY
  deriving DecidableEq, Repr

/-- A 3D vector, as used for the player world position. -/
structure Vec3 where
  x : ℚ
  y : ℚ
  z : ℚ
  deriving DecidableEq, Repr

/-- The GameObject interface from types: id, type, position (split into
x, y, z), active flag and the optional per-variant payload fields. -/
structure GameObject where
  id : ℕ
  type : ObjType
  x : ℚ
  y : ℚ
  z : ℚ
  active : Bool
  value : Option String := none
  color : Option String := none
  targetIndex : Option ℕ := none
  points : Option ℚ := none
  hasFired : Option Bool := none
  moveDirection : Option ℚ := none
  moveSpeed : Option ℚ := none
  laserActive : Option Bool := none
  deriving DecidableEq, Repr

/-- The outward effects a tick emits: store callbacks, window events and
audio cues, in emission order. -/
inductive GameEvent
  | particleBurst (x y z : ℚ) (color : String)
  | playerHit
  | openShop
  | collectGem (points : ℚ)
  | collectLetter (idx : ℕ)
  | activateMagnet
  | activateShield
  | audioGemCollect
  | audioLetterCollect
  deriving DecidableEq, Repr

/-- JS expression v || d on numbers: undefined and 0 are falsy. -/
def jsOrNum (v : Option ℚ) (d : ℚ) : ℚ :=
  match v with
  | none => d
  | some q => if q = 0 then d else q

/-- JS expression v || d on strings: undefined and the empty string are falsy. -/
def jsOrStr (v : Option String) (d : String) : String :=
  match v with
  | none => d
  | some s => if s = "" then d else s

/-- THREE.MathUtils.lerp. -/
def lerp (a b t : ℚ) : ℚ := a + (b - a) * t

/-- Reads the optional hasFired flag the way JS truthiness does. -/
def hasFiredB (o : GameObject) : Bool := o.hasFired.getD false

/-- Constant LANE_WIDTH from types. -/
def LANE_WIDTH : ℚ := 2.2

/-- Constant SPAWN_DISTANCE from types. -/
def SPAWN_DISTANCE : ℚ := 120

/-- Constant REMOVE_DISTANCE from types. -/
def REMOVE_DISTANCE : ℚ := 20

/-- Constant MISSILE_SPEED from LevelManager. -/
def MISSILE_SPEED : ℚ := 30

/-- Constant OBSTACLE_HEIGHT from LevelManager. -/
def OBSTACLE_HEIGHT : ℚ := 1.6

/-- Constant BASE_LETTER_INTERVAL from LevelManager. -/
def BASE_LETTER_INTERVAL : ℚ := 200

/-- Function getLetterInterval from LevelManager. -/
def getLetterInterval (level : ℕ) : ℚ :=
  BASE_LETTER_INTERVAL * (1 + ((level : ℚ) - 1) * 0.4)

/-- The per-level difficulty configuration record. -/
structure DifficultyConfig where
  obstacleChance : ℚ
  multiObstacleChance : ℚ
  tripleObstacleChance : ℚ
  droneChance : ℚ
  alienChance : ℚ
  gapChance : ℚ
  gemBaseValue : ℚ
  gemBonusValue : ℚ
  minGap : ℚ
  powerupChance : ℚ
  deriving DecidableEq, Repr

/-- Function getDifficultyConfig from LevelManager. -/
def getDifficultyConfig (level : ℕ) : DifficultyConfig :=
  { obstacleChance := min (0.20 + (level : ℚ) * 0.05) 0.50
    multiObstacleChance := min (0.50 + (level : ℚ) * 0.05) 0.85
    tripleObstacleChance := min (0.80 + (level : ℚ) * 0.02) 0.95
    droneChance := if level ≥ 2 then min (0.10 + ((level : ℚ) - 2) * 0.03) 0.25 else 0
    alienChance := if level ≥ 2 then min (0.15 + ((level : ℚ) - 2) * 0.04) 0.35 else 0
    gapChance := if level ≥ 4 then min (0.05 + ((level : ℚ) - 4) * 0.02) 0.15 else 0
    gemBaseValue := 50 + ((level : ℚ) - 1) * 10
    gemBonusValue := 100 + ((level : ℚ) - 1) * 25
    minGap := max 10 (14 - (level : ℚ) * 0.5)
    powerupChance := min (0.05 + (level : ℚ) * 0.01) 0.12 }

/-- Function getRandomLane from LevelManager, with the Math.random() value
passed explicitly. -/
def getRandomLane (laneCount : ℕ) (r : ℚ) : ℤ :=
  let maxLane : ℤ := (laneCount : ℤ) / 2
  ⌊r * ((2 * maxLane + 1 : ℤ) : ℚ)⌋ - maxLane

/-- The per-tick context snapshotted at tick start: elapsed distance,
clamped delta, player position, magnet timer state and lane count. -/
structure Ctx where
  dist : ℚ
  safeDelta : ℚ
  playerPos : Vec3
  isMagnetActive : Bool
  laneCount : ℕ
  deriving DecidableEq, Repr

/-- Forward movement per tick: every entity advances by dist, a missile
additionally by MISSILE_SPEED times the clamped delta. -/
def moveAmountFor (t : ObjType) (dist safeDelta : ℚ) : ℚ :=
  if t = ObjType.MISSILE then dist + MISSILE_SPEED * safeDelta else dist

/-- The magnet pull block of the tick loop. The source compares
Math.sqrt(dx * dx + dz * dz) with 40; that is embedded as the equivalent
comparison of the squared distance with 1600. -/
def magnetStep (ctx : Ctx) (o : GameObject) : GameObject :=
  if ctx.isMagnetActive = true ∧ o.type = ObjType.GEM ∧ o.active = true then
    let dx := ctx.playerPos.x - o.x
    let dz := ctx.playerPos.z - o.z
    if dx * dx + dz * dz < 1600 then
      let pull := ctx.safeDelta * 10
      { o with x := o.x + dx * pull
               y := lerp o.y ctx.playerPos.y pull
               z := o.z + dz * pull }
    else o
  else o

/-- The drone AI block of the tick loop. -/
def droneStep (ctx : Ctx) (o : GameObject) : GameObject :=
  if o.type = ObjType.DRONE ∧ o.active = true then
    if o.z < ctx.playerPos.z - 5 then
      { o with x := lerp o.x ctx.playerPos.x (ctx.safeDelta * 1.5) }
    else o
  else o

/-- Lane boundary used by the barrier movement block:
Math.floor(laneCount / 2) * LANE_WIDTH. -/
def maxLaneX (laneCount : ℕ) : ℚ := ((laneCount / 2 : ℕ) : ℚ) * LANE_WIDTH

/-- The barrier side-to-side movement block of the tick loop. -/
def barrierStep (ctx : Ctx) (o : GameObject) : GameObject :=
  if o.type = ObjType.BARRIER ∧ o.active = true then
    let maxX := maxLaneX ctx.laneCount
    let x1 := o.x + jsOrNum o.moveDirection 1 * jsOrNum o.moveSpeed 3 * ctx.safeDelta
    if x1 > maxX then { o with x := maxX, moveDirection := some (-1) }
    else if x1 < -maxX then { o with x := -maxX, moveDirection := some 1 }
    else { o with x := x1 }
  else o

/-- A missile as pushed by turret or alien firing. -/
def missileEntity (fid : ℕ) (x h z : ℚ) (c : String) : GameObject :=
  { id := fid, type := ObjType.MISSILE, x := x, y := h, z := z, active := true,
    color := some c }

/-- The turret and alien firing blocks of the tick loop: the updated
entity, the missiles pushed onto newSpawns and the emitted events. -/
def fireStep (fid : ℕ) (o : GameObject) : GameObject × List GameObject × List GameEvent :=
  if o.type = ObjType.TURRET ∧ o.active = true ∧ hasFiredB o = false then
    if o.z > -80 then
      ({ o with hasFired := some true },
       [missileEntity fid o.x 0.8 (o.z + 2) ("#ffaa00")],
       [GameEvent.particleBurst o.x o.y o.z ("#ffaa00")])
    else (o, [], [])
  else if o.type = ObjType.ALIEN ∧ o.active = true ∧ hasFiredB o = false then
    if o.z > -90 then
      ({ o with hasFired := some true },
       [missileEntity fid o.x 1.0 (o.z + 2) ("#ff0000")],
       [GameEvent.particleBurst o.x o.y o.z ("#ff00ff")])
    else (o, [], [])
  else (o, [], [])

/-- Membership of the damage-source class in the collision resolver. -/
def isDamageSource (t : ObjType) : Bool :=
  t = ObjType.OBSTACLE ∨ t = ObjType.ALIEN ∨ t = ObjType.MISSILE ∨
  t = ObjType.DRONE ∨ t = ObjType.LASER_GATE ∨ t = ObjType.BARRIER ∨
  t = ObjType.SPIKE_FLOOR ∨ t = ObjType.TURRET

/-- The per-type vertical interval (objBottom, objTop) of the collision
resolver: defaults to position[1] plus or minus 0.5 and is overridden per
type exactly as the if chain in the source does. -/
def damageBand (o : GameObject) : ℚ × ℚ :=
  if o.type = ObjType.OBSTACLE then (0, OBSTACLE_HEIGHT)
  else if o.type = ObjType.MISSILE then (0.5, 1.5)
  else if o.type = ObjType.DRONE then (o.y - 0.5, o.y + 0.5)
  else if o.type = ObjType.LASER_GATE then (0.5, 1.2)
  else if o.type = ObjType.BARRIER then (0, 2.5)
  else if o.type = ObjType.SPIKE_FLOOR then (0, 0.8)
  else if o.type = ObjType.TURRET then (0, 0.8)
  else (o.y - 0.5, o.y + 0.5)

/-- Events of the item-collection branch of the collision resolver
(store callback plus audio cue, before the particle burst). -/
def collectEvents (o : GameObject) : List GameEvent :=
  if o.type = ObjType.GEM then
    [GameEvent.collectGem (jsOrNum o.points 50), GameEvent.audioGemCollect]
  else if o.type = ObjType.LETTER ∧ o.targetIndex.isSome = true then
    [GameEvent.collectLetter (o.targetIndex.getD 0), GameEvent.audioLetterCollect]
  else if o.type = ObjType.MAGNET then
    [GameEvent.activateMagnet, GameEvent.audioGemCollect]
  else if o.type = ObjType.SHIELD then
    [GameEvent.activateShield, GameEvent.audioGemCollect]
  else []

/-- The collision block of the tick loop for one entity: the updated
entity, the keep flag as set by this block, and the emitted events.
prevZ is the forward coordinate of the entity before the movement of this tick. -/
def collideStep (ctx : Ctx) (prevZ : ℚ) (o : GameObject) :
    GameObject × Bool × List GameEvent :=
  if o.active = true then
    if o.type = ObjType.SHOP_PORTAL then
      if |o.z - ctx.playerPos.z| < 2 then
        ({ o with active := false }, false, [GameEvent.openShop])
      else (o, true, [])
    else if prevZ < ctx.playerPos.z + 2 ∧ o.z > ctx.playerPos.z - 2 then
      if |o.x - ctx.playerPos.x| <
          (if o.type = ObjType.MAGNET ∨ o.type = ObjType.SHIELD then 1.5 else 0.9) then
        if isDamageSource o.type = true then
          if ctx.playerPos.y < (damageBand o).2 ∧ ctx.playerPos.y + 1.8 > (damageBand o).1 then
            ({ o with active := false }, true,
             [GameEvent.playerHit,
              GameEvent.particleBurst o.x o.y o.z
                (if o.type = ObjType.DRONE then ("#000000") else ("#ff4400"))])
          else (o, true, [])
        else
          if |o.y - ctx.playerPos.y| < 2.5 then
            ({ o with active := false }, true,
             collectEvents o ++
               [GameEvent.particleBurst o.x o.y o.z (jsOrStr o.color ("#ffffff"))])
          else (o, true, [])
      else (o, true, [])
    else (o, true, [])
  else (o, true, [])

/-- One full iteration of the per-entity loop: movement, magnet pull,
drone AI, barrier movement, firing, collision and the removal test
against REMOVE_DISTANCE. Returns the updated entity, whether it is kept,
the missiles it pushed onto newSpawns, and the events it emitted. -/
def processObj (ctx : Ctx) (fid : ℕ) (o0 : GameObject) :
    GameObject × Bool × List GameObject × List GameEvent :=
  let prevZ := o0.z
  let o1 := { o0 with z := o0.z + moveAmountFor o0.type ctx.dist ctx.safeDelta }
  let o4 := barrierStep ctx (droneStep ctx (magnetStep ctx o1))
  let fired := fireStep fid o4
  let coll := collideStep ctx prevZ fired.1
  (coll.1, coll.2.1 && !(decide (coll.1.z > REMOVE_DISTANCE)), fired.2.1, fired.2.2 ++ coll.2.2)

/-- The per-entity loop over the whole registry, assigning fresh ids to
fired missiles from fid upward: kept entities, newSpawns, events. -/
def processList (ctx : Ctx) : ℕ → List GameObject → List GameObject × List GameObject × List GameEvent
  | _, [] => ([], [], [])
  | fid, o :: os =>
    let r := processObj ctx fid o
    let rest := processList ctx (fid + 1) os
    ((if r.2.1 then [r.1] else []) ++ rest.1, r.2.2.1 ++ rest.2.1, r.2.2.2 ++ rest.2.2)

/-- Next Math.random() value of the roll list (head, 0 if exhausted). -/
def rollHead (rolls : List ℚ) : ℚ := rolls.headD 0

/-- The roll list after one Math.random() call. -/
def rollTail (rolls : List ℚ) : List ℚ := rolls.tail

/-- The track-front filter of the spawn planner: entities that are
neither missiles nor drones. -/
def staticObjs (objects : List GameObject) : List GameObject :=
  objects.filter (fun o => !(decide (o.type = ObjType.MISSILE)) &&
                           !(decide (o.type = ObjType.DRONE)))

/-- The spawn horizon furthestZ: the minimum forward coordinate of the
static entities, or the -20 fallback when there are none. -/
def furthestZ (objects : List GameObject) : ℚ :=
  match (staticObjs objects).map (fun o => o.z) with
  | [] => -20
  | z :: zs => zs.foldl min z

/-- The GEMINI target word of the letter objective. -/
def letterTarget : List String := ["G", "E", "M", "I", "N", "I"]

/-- Constant GEMINI_COLORS from types. -/
def geminiColors : List String :=
  ["#2979ff", "#ff1744", "#ffea00", "#2979ff", "#00e676", "#ff1744"]

/-- A letter entity as pushed by the letter-due branch. -/
def letterEntity (fid : ℕ) (lane : ℤ) (chosen : ℕ) (spawnZ : ℚ) : GameObject :=
  { id := fid, type := ObjType.LETTER, x := (lane : ℚ) * LANE_WIDTH, y := 1.0,
    z := spawnZ, active := true, color := some (geminiColors.getD chosen ("")),
    value := some (letterTarget.getD chosen ("")), targetIndex := some chosen }

/-- A ground gem with the level-scaled base value, pushed when no letter
index is left and on the plain ground-item path. -/
def groundGem (fid : ℕ) (lane : ℤ) (spawnZ points : ℚ) : GameObject :=
  { id := fid, type := ObjType.GEM, x := (lane : ℚ) * LANE_WIDTH, y := 1.2,
    z := spawnZ, active := true, color := some ("#00ffff"), points := some points }

/-- A laser gate as pushed on the level-4-plus obstacle path; its gate
width Math.min(2 + Math.floor(level / 3), laneCount) is stored in value. -/
def laserGateEntity (fid level laneCount : ℕ) (spawnZ : ℚ) : GameObject :=
  { id := fid, type := ObjType.LASER_GATE, x := 0, y := 0.8, z := spawnZ,
    active := true, color := some ("#ff0000"), laserActive := some true,
    value := some (toString (min (2 + level / 3) laneCount)) }

/-- A moving barrier as pushed on the level-5-plus obstacle path, with
its direction roll and level-scaled speed. -/
def barrierEntity (fid : ℕ) (lane : ℤ) (spawnZ : ℚ) (rDir : ℚ) (level : ℕ) : GameObject :=
  { id := fid, type := ObjType.BARRIER, x := (lane : ℚ) * LANE_WIDTH, y := 1.25,
    z := spawnZ, active := true, color := some ("#ff6600"),
    moveDirection := some (if rDir > 0.5 then 1 else -1),
    moveSpeed := some (3 + (level : ℚ) * 0.5) }

/-- A floor spike as pushed on the level-3-plus obstacle path. -/
def spikeEntity (fid : ℕ) (lane : ℤ) (spawnZ : ℚ) : GameObject :=
  { id := fid, type := ObjType.SPIKE_FLOOR, x := (lane : ℚ) * LANE_WIDTH, y := 0,
    z := spawnZ, active := true, color := some ("#cc0000") }

/-- A turret as pushed on the level-6-plus obstacle path. -/
def turretEntity (fid : ℕ) (lane : ℤ) (spawnZ : ℚ) : GameObject :=
  { id := fid, type := ObjType.TURRET, x := (lane : ℚ) * LANE_WIDTH, y := 0.2,
    z := spawnZ, active := true, color := some ("#666666"), hasFired := some false }

/-- A hunter drone as pushed on the drone obstacle path. -/
def droneEntity (fid : ℕ) (lane : ℤ) (spawnZ : ℚ) : GameObject :=
  { id := fid, type := ObjType.DRONE, x := (lane : ℚ) * LANE_WIDTH, y := 1.5,
    z := spawnZ, active := true, color := some ("#111111") }

/-- An alien as pushed on the alien obstacle path. -/
def alienEntity (fid : ℕ) (lane : ℤ) (spawnZ : ℚ) : GameObject :=
  { id := fid, type := ObjType.ALIEN, x := (lane : ℚ) * LANE_WIDTH, y := 1.5,
    z := spawnZ, active := true, color := some ("#00ff00"), hasFired := some false }

/-- A standard obstacle cone, centered at half the obstacle height. -/
def obstacleEntity (fid : ℕ) (lane : ℤ) (spawnZ : ℚ) : GameObject :=
  { id := fid, type := ObjType.OBSTACLE, x := (lane : ℚ) * LANE_WIDTH,
    y := OBSTACLE_HEIGHT / 2, z := spawnZ, active := true, color := some ("#ff0054") }

/-- A shield or magnet powerup, at the given height, decided by its roll. -/
def powerupEntity (fid : ℕ) (laneX h : ℚ) (spawnZ : ℚ) (rShield : ℚ) : GameObject :=
  { id := fid, type := if rShield > 0.5 then ObjType.SHIELD else ObjType.MAGNET,
    x := laneX, y := h, z := spawnZ, active := true,
    color := some (if rShield > 0.5 then ("#00ffff") else ("#d000ff")) }

/-- A bonus gem on top of a standard obstacle. -/
def bonusGem (fid : ℕ) (laneX : ℚ) (spawnZ points : ℚ) : GameObject :=
  { id := fid, type := ObjType.GEM, x := laneX, y := OBSTACLE_HEIGHT + 1.0,
    z := spawnZ, active := true, color := some ("#ffd700"), points := some points }

/-- A jump pad, pushed on the level-4-plus ground-item path. -/
def jumpPadEntity (fid : ℕ) (lane : ℤ) (spawnZ : ℚ) : GameObject :=
  { id := fid, type := ObjType.JUMP_PAD, x := (lane : ℚ) * LANE_WIDTH, y := 0.1,
    z := spawnZ, active := true, color := some ("#00ff88") }

/-- A speed boost, pushed on the level-7-plus ground-item path. -/
def speedBoostEntity (fid : ℕ) (lane : ℤ) (spawnZ : ℚ) : GameObject :=
  { id := fid, type := ObjType.SPEED_BOOST, x := (lane : ℚ) * LANE_WIDTH, y := 0.5,
    z := spawnZ, active := true, color := some ("#ffaa00") }

/-- The list of all lanes -maxLane..maxLane used for multi-spawns. -/
def laneList (laneCount : ℕ) : List ℤ :=
  (List.range (2 * (laneCount / 2) + 1)).map (fun i => (i : ℤ) - (laneCount / 2 : ℕ))

/-- The source shuffles the lane list with sort given a random comparator,
whose resulting permutation and number of comparator calls are
engine-defined; it is modelled as a roll-driven selection shuffle, one
roll per picked element. -/
def shuffleLanes : List ℤ → List ℚ → List ℤ × List ℚ
  | [], rolls => ([], rolls)
  | l :: ls, rolls =>
    let lanes := l :: ls
    let i := min (Int.toNat ⌊rollHead rolls * lanes.length⌋) ls.length
    let rest := shuffleLanes (lanes.eraseIdx i) (rollTail rolls)
    (lanes.getD i 0 :: rest.1, rest.2)
  termination_by lanes _ => lanes.length
  decreasing_by
    simp only [List.length_eraseIdx, List.length_cons]
    split <;> omega

/-- The standard-obstacle loop: one obstacle per taken lane, each with an
independent top roll for a powerup or a bonus gem above it. -/
def obstacleRow (level : ℕ) (spawnZ : ℚ) : ℕ → List ℤ → List ℚ → List GameObject
  | _, [], _ => []
  | fid, l :: ls, rolls =>
    let cfg := getDifficultyConfig level
    let topRoll := rollHead rolls
    let rolls1 := rollTail rolls
    if topRoll < cfg.powerupChance then
      obstacleEntity fid l spawnZ ::
        powerupEntity (fid + 1) ((l : ℚ) * LANE_WIDTH) (OBSTACLE_HEIGHT + 1.0) spawnZ (rollHead rolls1) ::
        obstacleRow level spawnZ (fid + 2) ls (rollTail rolls1)
    else if topRoll < 0.3 then
      obstacleEntity fid l spawnZ ::
        bonusGem (fid + 1) ((l : ℚ) * LANE_WIDTH) spawnZ cfg.gemBonusValue ::
        obstacleRow level spawnZ (fid + 2) ls rolls1
    else
      obstacleEntity fid l spawnZ :: obstacleRow level spawnZ (fid + 2) ls rolls1

/-- The spike-cluster loop over its taken lanes. -/
def spikeRow (spawnZ : ℚ) : ℕ → List ℤ → List GameObject
  | _, [] => []
  | fid, l :: ls => spikeEntity fid l spawnZ :: spikeRow spawnZ (fid + 1) ls

/-- The alien-squad loop over its taken lanes. -/
def alienRow (spawnZ : ℚ) : ℕ → List ℤ → List GameObject
  | _, [] => []
  | fid, l :: ls => alienEntity fid l spawnZ :: alienRow spawnZ (fid + 1) ls

/-- The ground-item path after the jump-pad branch: speed boost (level 7
plus), powerup, or plain gem, with JS short-circuit roll consumption. -/
def groundRest (level : ℕ) (lane : ℤ) (spawnZ : ℚ) (rolls : List ℚ) (fid : ℕ) :
    List GameObject :=
  let cfg := getDifficultyConfig level
  let afterBoost : List ℚ → List GameObject := fun rs =>
    if rollHead rs < cfg.powerupChance then
      [powerupEntity fid ((lane : ℚ) * LANE_WIDTH) 1.2 spawnZ (rollHead (rollTail rs))]
    else [groundGem fid lane spawnZ cfg.gemBaseValue]
  if level ≥ 7 then
    if rollHead rolls < 0.03 then [speedBoostEntity fid lane spawnZ]
    else afterBoost (rollTail rolls)
  else afterBoost rolls

/-- The obstacle sub-branch of the spawn decision tree, entered with the
roll stream positioned just after the isObstacle roll: pops the
obstacleRoll and dispatches across the level-gated hazard types in
source order. -/
def obstacleBranch (level laneCount : ℕ) (spawnZ : ℚ) (rolls : List ℚ) (fid : ℕ) :
    List GameObject :=
  let cfg := getDifficultyConfig level
  let obstacleRoll := rollHead rolls
  let rolls2 := rollTail rolls
  if level ≥ 4 ∧ obstacleRoll < 0.10 then
    [laserGateEntity fid level laneCount spawnZ]
  else if level ≥ 5 ∧ obstacleRoll < 0.18 then
    [barrierEntity fid (getRandomLane laneCount (rollHead rolls2)) spawnZ
      (rollHead (rollTail rolls2)) level]
  else if level ≥ 3 ∧ obstacleRoll < 0.30 then
    let sh := shuffleLanes (laneList laneCount) rolls2
    let spikeCount := min (1 + Int.toNat ⌊rollHead sh.2 * 3⌋) sh.1.length
    spikeRow spawnZ fid (sh.1.take spikeCount)
  else if level ≥ 6 ∧ obstacleRoll < 0.38 then
    [turretEntity fid (getRandomLane laneCount (rollHead rolls2)) spawnZ]
  else if rollHead rolls2 < cfg.droneChance then
    [droneEntity fid (getRandomLane laneCount (rollHead (rollTail rolls2))) spawnZ]
  else if rollHead (rollTail rolls2) < cfg.alienChance then
    let sh := shuffleLanes (laneList laneCount) (rollTail (rollTail rolls2))
    let pAlien := rollHead sh.2
    let alienCount :=
      if pAlien > 0.9 ∧ sh.1.length ≥ 3 then 3
      else if pAlien > 0.7 then min 2 sh.1.length
      else 1
    alienRow spawnZ fid (sh.1.take alienCount)
  else
    let sh := shuffleLanes (laneList laneCount) (rollTail (rollTail rolls2))
    let p := rollHead sh.2
    let countToSpawn :=
      if p > cfg.tripleObstacleChance then min 3 sh.1.length
      else if p > cfg.multiObstacleChance then min 2 sh.1.length
      else 1
    obstacleRow level spawnZ fid (sh.1.take countToSpawn) (rollTail sh.2)

/-- The ground-item sub-branch of the spawn decision tree, entered with
the roll stream positioned just after the isObstacle roll: pops the lane
roll, then the level-gated jump-pad roll, then the rest. -/
def groundBranch (level laneCount : ℕ) (spawnZ : ℚ) (rolls : List ℚ) (fid : ℕ) :
    List GameObject :=
  let lane := getRandomLane laneCount (rollHead rolls)
  let rolls2 := rollTail rolls
  if level ≥ 4 then
    if rollHead rolls2 < 0.03 then [jumpPadEntity fid lane spawnZ]
    else groundRest level lane spawnZ (rollTail rolls2) fid
  else groundRest level lane spawnZ rolls2 fid

/-- The spawn decision tree of the spawn planner at an admissible spawn
point: the pushed entities and whether the letter threshold advances.
Branches consume Math.random() rolls exactly in source call order,
honoring JS short-circuit evaluation. -/
def spawnEntities (level laneCount : ℕ) (spawnZ : ℚ) (due : Bool)
    (collected : List ℕ) (rolls : List ℚ) (fid : ℕ) : List GameObject × Bool :=
  let cfg := getDifficultyConfig level
  if due then
    let lane := getRandomLane laneCount (rollHead rolls)
    let rolls1 := rollTail rolls
    let available := (List.range 6).filter (fun i => decide (i ∉ collected))
    if available.length > 0 then
      let chosen := available.getD (Int.toNat ⌊rollHead rolls1 * (available.length : ℚ)⌋) 0
      ([letterEntity fid lane chosen spawnZ], true)
    else
      ([groundGem fid lane spawnZ cfg.gemBaseValue], false)
  else if rollHead rolls > 0.1 then
    let rolls1 := rollTail rolls
    if rollHead rolls1 < cfg.obstacleChance then
      (obstacleBranch level laneCount spawnZ (rollTail rolls1) fid, false)
    else
      (groundBranch level laneCount spawnZ (rollTail rolls1) fid, false)
  else ([], false)

/-- The spawn phase of the tick: compute the horizon, gate on the
spawn-ahead distance, place the spawn point and run the decision tree.
Returns the updated registry and next-letter threshold. -/
def spawnPhase (level laneCount : ℕ) (speed distT nld : ℚ) (collected : List ℕ)
    (rolls : List ℚ) (fid : ℕ) (objects : List GameObject) :
    List GameObject × ℚ :=
  let fz := furthestZ objects
  if fz > -SPAWN_DISTANCE then
    let cfg := getDifficultyConfig level
    let minGap := cfg.minGap + speed * 0.3
    let spawnZ := min (fz - minGap) (-SPAWN_DISTANCE)
    let due := decide (distT ≥ nld)
    let sp := spawnEntities level laneCount spawnZ due collected rolls fid
    (objects ++ sp.1, if sp.2 then nld + getLetterInterval level else nld)
  else (objects, nld)

/-- The external inputs snapshotted by one tick. -/
structure TickEnv where
  status : GameStatus
  speed : ℚ
  delta : ℚ
  playerRef : Option Vec3
  magnetActive : Bool
  laneCount : ℕ
  level : ℕ
  collectedLetters : List ℕ
  rolls : List ℚ
  freshId : ℕ
  deriving Repr

/-- The mutable refs the tick owns: registry, cumulative distance and
next-letter threshold. -/
structure TickState where
  objects : List GameObject
  distanceTraveled : ℚ
  nextLetterDistance : ℚ
  deriving DecidableEq, Repr

/-- The per-tick context: delta clamped to 0.05, distance from speed,
player position defaulting to the origin while unresolved. -/
def tickCtx (env : TickEnv) : Ctx :=
  let safeDelta := min env.delta 0.05
  { dist := env.speed * safeDelta, safeDelta := safeDelta,
    playerPos := env.playerRef.getD ⟨0, 0, 0⟩,
    isMagnetActive := env.magnetActive, laneCount := env.laneCount }

/-- One full simulation tick: status gate, distance accumulation, the
per-entity loop, newSpawns appended after the loop, then the spawn
phase. Returns the updated state and the emitted events. -/
def tick (env : TickEnv) (st : TickState) : TickState × List GameEvent :=
  if env.status = GameStatus.PLAYING then
    let ctx := tickCtx env
    let distT := st.distanceTraveled + ctx.dist
    let res := processList ctx env.freshId st.objects
    let afterLoop := res.1 ++ res.2.1
    let sp := spawnPhase env.level env.laneCount env.speed distT st.nextLetterDistance
      env.collectedLetters env.rolls (env.freshId + st.objects.length) afterLoop
    ({ objects := sp.1, distanceTraveled := distT, nextLetterDistance := sp.2 }, res.2.2)
  else (st, [])

/-! Helper lemmas: which fields each behavior block leaves unchanged. -/

lemma magnetStep_pres (ctx : Ctx) (o : GameObject) :
    (magnetStep ctx o).id = o.id ∧ (magnetStep ctx o).type = o.type ∧
    (magnetStep ctx o).active = o.active ∧ (magnetStep ctx o).hasFired = o.hasFired ∧
    (magnetStep ctx o).moveDirection = o.moveDirection ∧
    (magnetStep ctx o).moveSpeed = o.moveSpeed := by
  unfold magnetStep
  dsimp only
  split_ifs <;> simp

lemma droneStep_pres (ctx : Ctx) (o : GameObject) :
    (droneStep ctx o).id = o.id ∧ (droneStep ctx o).type = o.type ∧
    (droneStep ctx o).y = o.y ∧ (droneStep ctx o).z = o.z ∧
    (droneStep ctx o).active = o.active ∧ (droneStep ctx o).hasFired = o.hasFired ∧
    (droneStep ctx o).moveDirection = o.moveDirection ∧
    (droneStep ctx o).moveSpeed = o.moveSpeed := by
  unfold droneStep
  split_ifs <;> simp

lemma barrierStep_pres (ctx : Ctx) (o : GameObject) :
    (barrierStep ctx o).id = o.id ∧ (barrierStep ctx o).type = o.type ∧
    (barrierStep ctx o).y = o.y ∧ (barrierStep ctx o).z = o.z ∧
    (barrierStep ctx o).active = o.active ∧ (barrierStep ctx o).hasFired = o.hasFired ∧
    (barrierStep ctx o).moveSpeed = o.moveSpeed := by
  unfold barrierStep
  dsimp only
  split_ifs <;> simp

lemma fireStep_fst_pres (fid : ℕ) (o : GameObject) :
    (fireStep fid o).1.id = o.id ∧ (fireStep fid o).1.type = o.type ∧
    (fireStep fid o).1.x = o.x ∧ (fireStep fid o).1.y = o.y ∧
    (fireStep fid o).1.z = o.z ∧ (fireStep fid o).1.active = o.active ∧
    (fireStep fid o).1.moveDirection = o.moveDirection ∧
    (fireStep fid o).1.moveSpeed = o.moveSpeed := by
  unfold fireStep
  split_ifs <;> simp

lemma fireStep_hasFired_of_true (fid : ℕ) (o : GameObject) (h : hasFiredB o = true) :
    (fireStep fid o).1 = o ∧ (fireStep fid o).2.1 = [] ∧ (fireStep fid o).2.2 = [] := by
  unfold fireStep
  rw [if_neg (by simp [h]), if_neg (by simp [h])]
  exact ⟨rfl, rfl, rfl⟩

lemma collideStep_fst_pres (ctx : Ctx) (prevZ : ℚ) (o : GameObject) :
    (collideStep ctx prevZ o).1.id = o.id ∧ (collideStep ctx prevZ o).1.type = o.type ∧
    (collideStep ctx prevZ o).1.x = o.x ∧ (collideStep ctx prevZ o).1.y = o.y ∧
    (collideStep ctx prevZ o).1.z = o.z ∧
    (collideStep ctx prevZ o).1.hasFired = o.hasFired ∧
    (collideStep ctx prevZ o).1.moveDirection = o.moveDirection ∧
    (collideStep ctx prevZ o).1.moveSpeed = o.moveSpeed := by
  unfold collideStep
  split_ifs <;> simp

lemma collideStep_keep_of_not_portal (ctx : Ctx) (prevZ : ℚ) (o : GameObject)
    (h : o.type ≠ ObjType.SHOP_PORTAL) :
    (collideStep ctx prevZ o).2.1 = true := by
  unfold collideStep
  split_ifs <;> simp_all

lemma collideStep_inactive (ctx : Ctx) (prevZ : ℚ) (o : GameObject)
    (h : o.active = false) :
    collideStep ctx prevZ o = (o, true, []) := by
  unfold collideStep
  rw [if_neg (by simp [h])]

/-- C6: on a magnet-active tick, an active gem strictly closer than 40
horizontal units (the source compares the Euclidean distance ignoring
the vertical axis with 40, embedded as the squared comparison with 1600)
has its lane and forward coordinates moved toward the player position by
the fraction safeDelta times 10 of the remaining difference, and its
vertical coordinate lerped at the same rate; with a positive clamped
delta the lane coordinate moves strictly toward the player lane
coordinate; gems at 40 or more units and non-gem entities are unaffected. -/
theorem c6_magnet_pull (ctx : Ctx) (o : GameObject)
    (hm : ctx.isMagnetActive = true) (ht : o.type = ObjType.GEM)
    (ha : o.active = true) :
    ((ctx.playerPos.x - o.x) * (ctx.playerPos.x - o.x) +
       (ctx.playerPos.z - o.z) * (ctx.playerPos.z - o.z) < 1600 →
      magnetStep ctx o =
        { o with x := o.x + (ctx.playerPos.x - o.x) * (ctx.safeDelta * 10)
                 y := lerp o.y ctx.playerPos.y (ctx.safeDelta * 10)
                 z := o.z + (ctx.playerPos.z - o.z) * (ctx.safeDelta * 10) })
    ∧ (¬ ((ctx.playerPos.x - o.x) * (ctx.playerPos.x - o.x) +
          (ctx.playerPos.z - o.z) * (ctx.playerPos.z - o.z) < 1600) →
        magnetStep ctx o = o)
    ∧ (0 < ctx.safeDelta → ctx.safeDelta ≤ 0.05 →
       (ctx.playerPos.x - o.x) * (ctx.playerPos.x - o.x) +
         (ctx.playerPos.z - o.z) * (ctx.playerPos.z - o.z) < 1600 →
       o.x ≠ ctx.playerPos.x →
       |(magnetStep ctx o).x - ctx.playerPos.x| < |o.x - ctx.playerPos.x|)
    ∧ (∀ o2 : GameObject, o2.type ≠ ObjType.GEM → magnetStep ctx o2 = o2) := by
  refine ⟨?_, ?_, ?_, ?_⟩
  · intro h
    unfold magnetStep
    rw [if_pos ⟨hm, ht, ha⟩, if_pos h]
  · intro h
    unfold magnetStep
    rw [if_pos ⟨hm, ht, ha⟩, if_neg h]
  · intro hd hd5 hlt hne
    have hx : (magnetStep ctx o).x = o.x + (ctx.playerPos.x - o.x) * (ctx.safeDelta * 10) := by
      unfold magnetStep
      rw [if_pos ⟨hm, ht, ha⟩, if_pos hlt]
    rw [hx]
    have h1 : o.x + (ctx.playerPos.x - o.x) * (ctx.safeDelta * 10) - ctx.playerPos.x
        = (o.x - ctx.playerPos.x) * (1 - ctx.safeDelta * 10) := by ring
    rw [h1, abs_mul]
    have h2 : |1 - ctx.safeDelta * 10| < 1 := by
      rw [abs_lt]
      constructor <;> nlinarith
    have h3 : 0 < |o.x - ctx.playerPos.x| := abs_pos.mpr (sub_ne_zero.mpr hne)
    calc |o.x - ctx.playerPos.x| * |1 - ctx.safeDelta * 10|
        < |o.x - ctx.playerPos.x| * 1 := by
          exact mul_lt_mul_of_pos_left h2 h3
      _ = |o.x - ctx.playerPos.x| := mul_one _
  · intro o2 h2
    unfold magnetStep
    rw [if_neg (by simp [h2])]

/-- C6 witness: a gem at lateral distance 35 with the player at the
origin is pulled, and its lane coordinate moves strictly toward the
player lane coordinate. -/
theorem c6_magnet_pull_witness :
    |(magnetStep { dist := 9/8, safeDelta := 1/20, playerPos := ⟨0, 0, 0⟩,
                   isMagnetActive := true, laneCount := 5 }
        { id := 2, type := ObjType.GEM, x := 35, y := 1, z := 0, active := true }).x - 0|
      < |35 - 0| := by
  have h := (c6_magnet_pull
    { dist := 9/8, safeDelta := 1/20, playerPos := ⟨0, 0, 0⟩,
      isMagnetActive := true, laneCount := 5 }
    { id := 2, type := ObjType.GEM, x := 35, y := 1, z := 0, active := true }
    rfl rfl rfl).2.2.1 (by norm_num) (by norm_num) (by norm_num) (by norm_num)
  exact h

/-- C7 counterexample: the claim states that a drone at forward
coordinate -10 with the player at forward coordinate 0 does not track,
but the source condition position[2] < playerPos.z - 5 holds there
(-10 < -5), so the lane coordinate of the drone does change. -/
theorem c7_counterexample :
    (droneStep { dist := 9/8, safeDelta := 1/20, playerPos := ⟨0, 0, 0⟩,
                 isMagnetActive := false, laneCount := 5 }
        { id := 1, type := ObjType.DRONE, x := 1, y := 3/2, z := -10, active := true }).x
      ≠ 1 := by norm_num [droneStep, lerp]

/-- C7 amended: an active drone lerps its lane coordinate toward the
player lane coordinate at rate safeDelta times 1.5 exactly while its
forward coordinate is smaller than the player forward coordinate minus 5
(more than 5 units ahead of the player, forward being more negative);
otherwise its lane coordinate is unchanged. In particular a drone at
forward -10 with the player at 0 IS tracking; tracking is disabled only
within the 5-unit margin or behind, for example at forward -3. -/
theorem c7_drone_tracking (ctx : Ctx) (o : GameObject)
    (ht : o.type = ObjType.DRONE) (ha : o.active = true) :
    (o.z < ctx.playerPos.z - 5 →
      droneStep ctx o = { o with x := lerp o.x ctx.playerPos.x (ctx.safeDelta * 1.5) })
    ∧ (¬ o.z < ctx.playerPos.z - 5 → droneStep ctx o = o) := by
  constructor <;> intro h <;> unfold droneStep
  · rw [if_pos ⟨ht, ha⟩, if_pos h]
  · rw [if_pos ⟨ht, ha⟩, if_neg h]

/-- C7 witness: a drone at forward -3 (inside the 5-unit margin) keeps
its lane coordinate. -/
theorem c7_drone_tracking_witness :
    droneStep { dist := 9/8, safeDelta := 1/20, playerPos := ⟨0, 0, 0⟩,
                isMagnetActive := false, laneCount := 5 }
        { id := 1, type := ObjType.DRONE, x := 1, y := 3/2, z := -3, active := true }
      = { id := 1, type := ObjType.DRONE, x := 1, y := 3/2, z := -3, active := true } := by
  exact (c7_drone_tracking _ _ rfl rfl).2 (by norm_num)

lemma magnetStep_inactive (ctx : Ctx) (o : GameObject) (h : o.active = false) :
    magnetStep ctx o = o := by
  unfold magnetStep
  rw [if_neg (by simp [h])]

lemma droneStep_inactive (ctx : Ctx) (o : GameObject) (h : o.active = false) :
    droneStep ctx o = o := by
  unfold droneStep
  rw [if_neg (by simp [h])]

lemma barrierStep_inactive (ctx : Ctx) (o : GameObject) (h : o.active = false) :
    barrierStep ctx o = o := by
  unfold barrierStep
  rw [if_neg (by simp [h])]

lemma fireStep_inactive (fid : ℕ) (o : GameObject) (h : o.active = false) :
    fireStep fid o = (o, [], []) := by
  unfold fireStep
  rw [if_neg (by simp [h]), if_neg (by simp [h])]

/-- C1 amended, part 1: an entity that is already inactive at the start
of a tick only advances with the world; it emits no event, fires
nothing, stays inactive, and is kept if and only if its forward
coordinate is still at most REMOVE_DISTANCE. Part 2: for every
non-shop-portal entity, the keep decision of the loop is exactly the
removal test against REMOVE_DISTANCE: deactivation alone never removes
an entity from the registry. -/
theorem c1_deactivation_permanent :
    (∀ (ctx : Ctx) (fid : ℕ) (o : GameObject), o.active = false →
      processObj ctx fid o =
        ({ o with z := o.z + moveAmountFor o.type ctx.dist ctx.safeDelta },
         !(decide (o.z + moveAmountFor o.type ctx.dist ctx.safeDelta > REMOVE_DISTANCE)),
         [], []))
    ∧ (∀ (ctx : Ctx) (fid : ℕ) (o : GameObject), o.type ≠ ObjType.SHOP_PORTAL →
        (processObj ctx fid o).2.1 =
          !(decide ((processObj ctx fid o).1.z > REMOVE_DISTANCE))) := by
  constructor
  · intro ctx fid o h
    have h1 : ({ o with z := o.z + moveAmountFor o.type ctx.dist ctx.safeDelta } :
        GameObject).active = false := h
    simp [processObj, magnetStep_inactive _ _ h1, droneStep_inactive _ _ h1,
      barrierStep_inactive _ _ h1, fireStep_inactive _ _ h1, collideStep_inactive _ _ _ h1]
  · intro ctx fid o h
    unfold processObj
    dsimp only
    have hgen : ∀ (o5 : GameObject), o5.type = o.type →
        ((collideStep ctx o.z o5).2.1 &&
          !(decide ((collideStep ctx o.z o5).1.z > REMOVE_DISTANCE)))
          = !(decide ((collideStep ctx o.z o5).1.z > REMOVE_DISTANCE)) := by
      intro o5 h5
      rw [collideStep_keep_of_not_portal _ _ _ (by rw [h5]; exact h)]
      simp
    exact hgen _ (by
      rw [(fireStep_fst_pres _ _).2.1, (barrierStep_pres _ _).2.1,
          (droneStep_pres _ _).2.1, (magnetStep_pres _ _).2.1])

/-- C1 witness: a concrete inactive gem is advanced, kept, and silent. -/
theorem c1_deactivation_permanent_witness :
    processObj { dist := 9/8, safeDelta := 1/20, playerPos := ⟨0, 0, 0⟩,
                 isMagnetActive := false, laneCount := 5 } 7
        { id := 0, type := ObjType.GEM, x := 0, y := 1, z := -5/2, active := false }
      = ({ id := 0, type := ObjType.GEM, x := 0, y := 1, z := -5/2 + 9/8, active := false },
         !(decide ((-5/2 + 9/8 : ℚ) > REMOVE_DISTANCE)), [], []) := by
  have h := c1_deactivation_permanent.1
    { dist := 9/8, safeDelta := 1/20, playerPos := ⟨0, 0, 0⟩,
      isMagnetActive := false, laneCount := 5 } 7
    { id := 0, type := ObjType.GEM, x := 0, y := 1, z := -5/2, active := false } rfl
  simpa [moveAmountFor] using h

def c1Env : TickEnv :=
  { status := GameStatus.PLAYING, speed := 45/2, delta := 1/20,
    playerRef := some ⟨0, 0, 0⟩, magnetActive := false, laneCount := 5, level := 1,
    collectedLetters := [], rolls := [], freshId := 100 }

def c1St : TickState :=
  { objects := [{ id := 0, type := ObjType.GEM, x := 0, y := 1, z := -5/2,
                  active := true, points := some 50 }],
    distanceTraveled := 0, nextLetterDistance := 200 }

/-- C1 counterexample: a gem collected (deactivated) during tick 1 is
still in the registry at the end of tick 3 (tick N+2), because the
compaction of the loop removes only entities whose forward coordinate
exceeds REMOVE_DISTANCE, never entities that are merely inactive. -/
theorem c1_counterexample :
    ((tick c1Env c1St).1.objects.map (fun o => o.active) = [false]) ∧
    ((tick c1Env (tick c1Env (tick c1Env c1St).1).1).1.objects.map (fun o => o.active)
      = [false]) := by
  have h1 : tick c1Env c1St =
      ({ objects := [{ id := 0, type := ObjType.GEM, x := 0, y := 1, z := -11/8,
                       active := false, points := some 50 }],
         distanceTraveled := 9/8, nextLetterDistance := 200 },
       [GameEvent.collectGem 50, GameEvent.audioGemCollect,
        GameEvent.particleBurst 0 1 (-11/8) ("#ffffff")]) := by
    simp [tick, tickCtx, processList, processObj, magnetStep, droneStep, barrierStep,
      fireStep, collideStep, moveAmountFor, isDamageSource, damageBand, hasFiredB,
      c1Env, c1St, lerp, REMOVE_DISTANCE, OBSTACLE_HEIGHT, MISSILE_SPEED, jsOrNum, jsOrStr,
      maxLaneX, LANE_WIDTH, SPAWN_DISTANCE, spawnPhase, spawnEntities, furthestZ, staticObjs,
      rollHead, rollTail, collectEvents, getRandomLane, getDifficultyConfig,
      getLetterInterval, missileEntity, BASE_LETTER_INTERVAL]
    norm_num
  have h2 : tick c1Env
      ({ objects := [{ id := 0, type := ObjType.GEM, x := 0, y := 1, z := -11/8,
                       active := false, points := some 50 }],
         distanceTraveled := 9/8, nextLetterDistance := 200 } : TickState) =
      ({ objects := [{ id := 0, type := ObjType.GEM, x := 0, y := 1, z := -1/4,
                       active := false, points := some 50 }],
         distanceTraveled := 9/4, nextLetterDistance := 200 }, []) := by
    simp [tick, tickCtx, processList, processObj, magnetStep, droneStep, barrierStep,
      fireStep, collideStep, moveAmountFor, isDamageSource, damageBand, hasFiredB,
      c1Env, lerp, REMOVE_DISTANCE, OBSTACLE_HEIGHT, MISSILE_SPEED, jsOrNum, jsOrStr,
      maxLaneX, LANE_WIDTH, SPAWN_DISTANCE, spawnPhase, spawnEntities, furthestZ, staticObjs,
      rollHead, rollTail, collectEvents, getRandomLane, getDifficultyConfig,
      getLetterInterval, missileEntity, BASE_LETTER_INTERVAL]
    norm_num
  have h3 : tick c1Env
      ({ objects := [{ id := 0, type := ObjType.GEM, x := 0, y := 1, z := -1/4,
                       active := false, points := some 50 }],
         distanceTraveled := 9/4, nextLetterDistance := 200 } : TickState) =
      ({ objects := [{ id := 0, type := ObjType.GEM, x := 0, y := 1, z := 7/8,
                       active := false, points := some 50 }],
         distanceTraveled := 27/8, nextLetterDistance := 200 }, []) := by
    simp [tick, tickCtx, processList, processObj, magnetStep, droneStep, barrierStep,
      fireStep, collideStep, moveAmountFor, isDamageSource, damageBand, hasFiredB,
      c1Env, lerp, REMOVE_DISTANCE, OBSTACLE_HEIGHT, MISSILE_SPEED, jsOrNum, jsOrStr,
      maxLaneX, LANE_WIDTH, SPAWN_DISTANCE, spawnPhase, spawnEntities, furthestZ, staticObjs,
      rollHead, rollTail, collectEvents, getRandomLane, getDifficultyConfig,
      getLetterInterval, missileEntity, BASE_LETTER_INTERVAL]
    norm_num
  rw [h1, h2, h3]
  constructor <;> rfl

def c9Env : TickEnv :=
  { status := GameStatus.PLAYING, speed := 45/2, delta := 1/20, playerRef := none,
    magnetActive := false, laneCount := 5, level := 1, collectedLetters := [],
    rolls := [], freshId := 100 }

def c9St : TickState :=
  { objects := [{ id := 0, type := ObjType.OBSTACLE, x := 0, y := 4/5, z := -5/2,
                  active := true }],
    distanceTraveled := 0, nextLetterDistance := 200 }

/-- C9 counterexample: on a tick where the player transform is not yet
resolved the source substitutes the origin for the player position and
still runs collision, so an obstacle sweeping across the origin is
deactivated and the damage signal is emitted that very tick. -/
theorem c9_counterexample :
    GameEvent.playerHit ∈ (tick c9Env c9St).2 ∧
    (tick c9Env c9St).1.objects.map (fun o => o.active) = [false] := by
  have h1 : tick c9Env c9St =
      ({ objects := [{ id := 0, type := ObjType.OBSTACLE, x := 0, y := 4/5, z := -11/8,
                       active := false }],
         distanceTraveled := 9/8, nextLetterDistance := 200 },
       [GameEvent.playerHit, GameEvent.particleBurst 0 (4/5) (-11/8) ("#ff4400")]) := by
    simp [tick, tickCtx, processList, processObj, magnetStep, droneStep, barrierStep,
      fireStep, collideStep, moveAmountFor, isDamageSource, damageBand, hasFiredB,
      c9Env, c9St, lerp, REMOVE_DISTANCE, OBSTACLE_HEIGHT, MISSILE_SPEED, jsOrNum, jsOrStr,
      maxLaneX, LANE_WIDTH, SPAWN_DISTANCE, spawnPhase, spawnEntities, furthestZ, staticObjs,
      rollHead, rollTail, collectEvents, getRandomLane, getDifficultyConfig,
      getLetterInterval, missileEntity, BASE_LETTER_INTERVAL]
    norm_num
  rw [h1]
  exact ⟨List.mem_cons_self _ _, rfl⟩

/-- C9 amended: a tick with an unresolved player reference behaves
exactly like a tick with the player at the origin: collision processing
is not skipped but runs against position (0, 0, 0). -/
theorem c9_no_player_uses_origin (env : TickEnv) (st : TickState) :
    tick { env with playerRef := none } st
      = tick { env with playerRef := some ⟨0, 0, 0⟩ } st := rfl

/-- C5: turret and alien firing. A fired entity (hasFired already true)
never fires again and no block of the loop ever resets the flag; a
turret fires exactly when it is active, unfired and past -80 forward,
an alien past -90, each appending one missile at the firer lane
coordinate with forward offset +2 (height 0.8 for a turret, 1.0 for an
alien) and emitting exactly one visual-effect event. -/
theorem c5_fire_once :
    (∀ (fid : ℕ) (o : GameObject), hasFiredB o = true → fireStep fid o = (o, [], []))
    ∧ (∀ (ctx : Ctx) (fid : ℕ) (o : GameObject), hasFiredB o = true →
        hasFiredB (processObj ctx fid o).1 = true)
    ∧ (∀ (fid : ℕ) (o : GameObject), o.type = ObjType.TURRET → o.active = true →
        hasFiredB o = false → o.z > -80 →
        fireStep fid o = ({ o with hasFired := some true },
          [missileEntity fid o.x 0.8 (o.z + 2) ("#ffaa00")],
          [GameEvent.particleBurst o.x o.y o.z ("#ffaa00")]))
    ∧ (∀ (fid : ℕ) (o : GameObject), o.type = ObjType.TURRET → ¬ o.z > -80 →
        fireStep fid o = (o, [], []))
    ∧ (∀ (fid : ℕ) (o : GameObject), o.type = ObjType.ALIEN → o.active = true →
        hasFiredB o = false → o.z > -90 →
        fireStep fid o = ({ o with hasFired := some true },
          [missileEntity fid o.x 1.0 (o.z + 2) ("#ff0000")],
          [GameEvent.particleBurst o.x o.y o.z ("#ff00ff")]))
    ∧ (∀ (fid : ℕ) (o : GameObject), o.type = ObjType.ALIEN → ¬ o.z > -90 →
        fireStep fid o = (o, [], [])) := by
  refine ⟨?_, ?_, ?_, ?_, ?_, ?_⟩
  · intro fid o h
    unfold fireStep
    rw [if_neg (by simp [h]), if_neg (by simp [h])]
  · intro ctx fid o h
    unfold processObj
    dsimp only
    have hgen : ∀ (o4 : GameObject), hasFiredB o4 = true →
        hasFiredB (collideStep ctx o.z (fireStep fid o4).1).1 = true := by
      intro o4 h4
      rw [(fireStep_hasFired_of_true fid o4 h4).1]
      unfold hasFiredB at h4 ⊢
      rw [(collideStep_fst_pres _ _ _).2.2.2.2.2.1]
      exact h4
    exact hgen _ (by
      unfold hasFiredB at h ⊢
      rw [(barrierStep_pres _ _).2.2.2.2.2.1, (droneStep_pres _ _).2.2.2.2.2.1,
          (magnetStep_pres _ _).2.2.2.1]
      exact h)
  · intro fid o ht ha hf hz
    unfold fireStep
    rw [if_pos ⟨ht, ha, hf⟩, if_pos hz]
  · intro fid o ht hz
    unfold fireStep
    by_cases hc : o.type = ObjType.TURRET ∧ o.active = true ∧ hasFiredB o = false
    · rw [if_pos hc, if_neg hz]
    · rw [if_neg hc, if_neg (by simp [ht])]
  · intro fid o ht ha hf hz
    unfold fireStep
    rw [if_neg (by simp [ht]), if_pos ⟨ht, ha, hf⟩, if_pos hz]
  · intro fid o ht hz
    unfold fireStep
    rw [if_neg (by simp [ht])]
    by_cases hc : o.type = ObjType.ALIEN ∧ o.active = true ∧ hasFiredB o = false
    · rw [if_pos hc, if_neg hz]
    · rw [if_neg hc]

/-- C5 witness: a turret at forward -79 with hasFired false fires one
missile at its lane with forward offset +2 and sets the flag; at -81 it
does not fire; once fired it stays silent. -/
theorem c5_fire_once_witness :
    fireStep 50 { id := 3, type := ObjType.TURRET, x := 0, y := 1/5, z := -79,
                  active := true, hasFired := some false }
      = ({ id := 3, type := ObjType.TURRET, x := 0, y := 1/5, z := -79,
           active := true, hasFired := some true },
         [missileEntity 50 0 0.8 (-79 + 2) ("#ffaa00")],
         [GameEvent.particleBurst 0 (1/5) (-79) ("#ffaa00")]) ∧
    fireStep 50 { id := 3, type := ObjType.TURRET, x := 0, y := 1/5, z := -81,
                  active := true, hasFired := some false }
      = ({ id := 3, type := ObjType.TURRET, x := 0, y := 1/5, z := -81,
           active := true, hasFired := some false }, [], []) ∧
    fireStep 51 { id := 3, type := ObjType.TURRET, x := 0, y := 1/5, z := -60,
                  active := true, hasFired := some true }
      = ({ id := 3, type := ObjType.TURRET, x := 0, y := 1/5, z := -60,
           active := true, hasFired := some true }, [], []) := by
  refine ⟨?_, ?_, ?_⟩
  · exact c5_fire_once.2.2.1 50 _ rfl rfl rfl (by norm_num)
  · exact c5_fire_once.2.2.2.1 50 _ rfl (by norm_num)
  · exact c5_fire_once.1 51 _ rfl

/-- C8: barrier oscillation. For an active barrier the lane coordinate
advances by direction times speed times the clamped delta; crossing a
lane boundary clamps the coordinate exactly to that boundary (at plus or
minus Math.floor(laneCount / 2) times LANE_WIDTH) and flips the sign of
the direction (given a unit direction, a nonnegative speed and delta,
and a start inside the boundaries, a clamp can only happen in the
direction of travel); the speed field is never changed by any block of
the loop, and at spawn the direction is the sign roll and the speed is
3 + level times 0.5. -/
theorem c8_barrier_oscillation :
    (∀ (ctx : Ctx) (o : GameObject), o.type = ObjType.BARRIER → o.active = true →
      (o.x + jsOrNum o.moveDirection 1 * jsOrNum o.moveSpeed 3 * ctx.safeDelta
          > maxLaneX ctx.laneCount →
        barrierStep ctx o =
          { o with x := maxLaneX ctx.laneCount, moveDirection := some (-1) })
      ∧ (¬ o.x + jsOrNum o.moveDirection 1 * jsOrNum o.moveSpeed 3 * ctx.safeDelta
            > maxLaneX ctx.laneCount →
         o.x + jsOrNum o.moveDirection 1 * jsOrNum o.moveSpeed 3 * ctx.safeDelta
            < -maxLaneX ctx.laneCount →
        barrierStep ctx o =
          { o with x := -maxLaneX ctx.laneCount, moveDirection := some 1 })
      ∧ (¬ o.x + jsOrNum o.moveDirection 1 * jsOrNum o.moveSpeed 3 * ctx.safeDelta
            > maxLaneX ctx.laneCount →
         ¬ o.x + jsOrNum o.moveDirection 1 * jsOrNum o.moveSpeed 3 * ctx.safeDelta
            < -maxLaneX ctx.laneCount →
        barrierStep ctx o =
          { o with x := o.x + jsOrNum o.moveDirection 1 * jsOrNum o.moveSpeed 3
                          * ctx.safeDelta }))
    ∧ (∀ (ctx : Ctx) (o : GameObject),
        o.moveDirection = some 1 ∨ o.moveDirection = some (-1) →
        |o.x| ≤ maxLaneX ctx.laneCount →
        0 ≤ jsOrNum o.moveSpeed 3 → 0 ≤ ctx.safeDelta →
        (barrierStep ctx o).moveDirection = o.moveDirection ∨
        (barrierStep ctx o).moveDirection = some (-(jsOrNum o.moveDirection 1)))
    ∧ (∀ (ctx : Ctx) (fid : ℕ) (o : GameObject),
        (processObj ctx fid o).1.moveSpeed = o.moveSpeed)
    ∧ (∀ (fid : ℕ) (lane : ℤ) (spawnZ rDir : ℚ) (level : ℕ),
        (barrierEntity fid lane spawnZ rDir level).moveSpeed
            = some (3 + (level : ℚ) * 0.5) ∧
        ((barrierEntity fid lane spawnZ rDir level).moveDirection = some 1 ∨
         (barrierEntity fid lane spawnZ rDir level).moveDirection = some (-1))) := by
  refine ⟨?_, ?_, ?_, ?_⟩
  · intro ctx o ht ha
    refine ⟨?_, ?_, ?_⟩
    · intro h1
      unfold barrierStep
      rw [if_pos ⟨ht, ha⟩]
      dsimp only
      rw [if_pos h1]
    · intro h1 h2
      unfold barrierStep
      rw [if_pos ⟨ht, ha⟩]
      dsimp only
      rw [if_neg h1, if_pos h2]
    · intro h1 h2
      unfold barrierStep
      rw [if_pos ⟨ht, ha⟩]
      dsimp only
      rw [if_neg h1, if_neg h2]
  · intro ctx o hdir hx hspd hdt
    unfold barrierStep
    split
    · dsimp only
      have habs := abs_le.mp hx
      split
      · rename_i hHigh
        right
        rcases hdir with hd | hd
        · simp [hd, jsOrNum]
        · exfalso
          rw [hd] at hHigh
          simp only [jsOrNum] at hHigh hspd
          norm_num at hHigh
          nlinarith [habs.2, mul_nonneg hspd hdt]
      · split
        · rename_i hHigh hLow
          right
          rcases hdir with hd | hd
          · exfalso
            rw [hd] at hLow
            simp only [jsOrNum] at hLow hspd
            norm_num at hLow
            nlinarith [habs.1, mul_nonneg hspd hdt]
          · simp [hd, jsOrNum]
        · left; rfl
    · left; rfl
  · intro ctx fid o
    unfold processObj
    dsimp only
    rw [(collideStep_fst_pres _ _ _).2.2.2.2.2.2.2, (fireStep_fst_pres _ _).2.2.2.2.2.2.2,
        (barrierStep_pres _ _).2.2.2.2.2.2, (droneStep_pres _ _).2.2.2.2.2.2.2,
        (magnetStep_pres _ _).2.2.2.2.2]
  · intro fid lane spawnZ rDir level
    unfold barrierEntity
    constructor
    · rfl
    · by_cases h : rDir > 0.5
      · left; simp [h]
      · right; simp [h]

/-- C8 witness: a 3-lane barrier at the right boundary moving right is
clamped to the boundary with flipped direction. -/
theorem c8_barrier_oscillation_witness :
    barrierStep { dist := 9/8, safeDelta := 1/20, playerPos := ⟨0, 0, 0⟩,
                  isMagnetActive := false, laneCount := 3 }
        { id := 4, type := ObjType.BARRIER, x := 11/5, y := 5/4, z := -50, active := true,
          moveDirection := some 1, moveSpeed := some 4 }
      = { id := 4, type := ObjType.BARRIER, x := maxLaneX 3, y := 5/4, z := -50,
          active := true, moveDirection := some (-1), moveSpeed := some 4 } := by
  have h := ((c8_barrier_oscillation.1
    { dist := 9/8, safeDelta := 1/20, playerPos := ⟨0, 0, 0⟩,
      isMagnetActive := false, laneCount := 3 }
    { id := 4, type := ObjType.BARRIER, x := 11/5, y := 5/4, z := -50, active := true,
      moveDirection := some 1, moveSpeed := some 4 } rfl rfl).1
    (by norm_num [jsOrNum, maxLaneX, LANE_WIDTH]))
  exact h

/-- The per-type vertical band exactly as claim C2 words it: Obstacle
[0, 1.6], Missile [0.5, 1.5], LaserGate [0.5, 1.2], Barrier [0, 2.5],
SpikeFloor [0, 0.8], Turret [0, 0.8], otherwise [y - 0.5, y + 0.5].
Stated from the claim for comparison with the damageBand of the code. -/
def specBand (o : GameObject) : ℚ × ℚ :=
  match o.type with
  | ObjType.OBSTACLE => (0, 1.6)
  | ObjType.MISSILE => (0.5, 1.5)
  | ObjType.LASER_GATE => (0.5, 1.2)
  | ObjType.BARRIER => (0, 2.5)
  | ObjType.SPIKE_FLOOR => (0, 0.8)
  | ObjType.TURRET => (0, 0.8)
  | _ => (o.y - 0.5, o.y + 0.5)

/-- The per-type lateral threshold as claim C2 words it: 1.5 for Magnet
and Shield, 0.9 for every other type. -/
def specLateral (t : ObjType) : ℚ :=
  if t = ObjType.MAGNET ∨ t = ObjType.SHIELD then 1.5 else 0.9

lemma damageBand_eq_specBand (o : GameObject) : damageBand o = specBand o := by
  unfold damageBand specBand OBSTACLE_HEIGHT
  cases o.type <;> simp

/-- C2: collision characterization for an active non-shop-portal entity.
A damage-source entity registers a hit (is deactivated and emits the
player-damaged signal followed by the destruction effect) exactly when
the forward window holds (previous-tick forward coordinate below the
player forward coordinate + 2 and current forward coordinate above the
player forward coordinate - 2), the lane distance is below the per-type
threshold, and the player vertical interval [y, y + 1.8] overlaps the
per-type band of the claim. Outside the forward window, or inside it but
outside the lateral threshold, the entity is untouched and nothing is
emitted. -/
theorem c2_collision_characterization (ctx : Ctx) (prevZ : ℚ) (o : GameObject)
    (ha : o.active = true) (hnp : o.type ≠ ObjType.SHOP_PORTAL) :
    (isDamageSource o.type = true →
      (collideStep ctx prevZ o =
        ({ o with active := false }, true,
         [GameEvent.playerHit,
          GameEvent.particleBurst o.x o.y o.z
            (if o.type = ObjType.DRONE then "#000000" else "#ff4400")]) ↔
       (prevZ < ctx.playerPos.z + 2 ∧ o.z > ctx.playerPos.z - 2 ∧
        |o.x - ctx.playerPos.x| < specLateral o.type ∧
        ctx.playerPos.y < (specBand o).2 ∧ ctx.playerPos.y + 1.8 > (specBand o).1)))
    ∧ (¬ (prevZ < ctx.playerPos.z + 2 ∧ o.z > ctx.playerPos.z - 2) →
        collideStep ctx prevZ o = (o, true, []))
    ∧ ((prevZ < ctx.playerPos.z + 2 ∧ o.z > ctx.playerPos.z - 2) →
        ¬ (|o.x - ctx.playerPos.x| < specLateral o.type) →
        collideStep ctx prevZ o = (o, true, [])) := by
  have hlat : (if o.type = ObjType.MAGNET ∨ o.type = ObjType.SHIELD
      then (1.5 : ℚ) else 0.9) = specLateral o.type := rfl
  refine ⟨?_, ?_, ?_⟩
  · intro hd
    unfold collideStep
    rw [if_pos ha, if_neg hnp, hlat, damageBand_eq_specBand]
    constructor
    · intro heq
      by_cases hw : prevZ < ctx.playerPos.z + 2 ∧ o.z > ctx.playerPos.z - 2
      · rw [if_pos hw] at heq
        by_cases hl : |o.x - ctx.playerPos.x| < specLateral o.type
        · rw [if_pos hl, if_pos hd] at heq
          by_cases hv : ctx.playerPos.y < (specBand o).2 ∧
              ctx.playerPos.y + 1.8 > (specBand o).1
          · exact ⟨hw.1, hw.2, hl, hv.1, hv.2⟩
          · rw [if_neg hv] at heq
            exact absurd (congrArg (fun p => p.2.2) heq) (by simp)
        · rw [if_neg hl] at heq
          exact absurd (congrArg (fun p => p.2.2) heq) (by simp)
      · rw [if_neg hw] at heq
        exact absurd (congrArg (fun p => p.2.2) heq) (by simp)
    · rintro ⟨hw1, hw2, hl, hv1, hv2⟩
      rw [if_pos ⟨hw1, hw2⟩, if_pos hl, if_pos hd, if_pos ⟨hv1, hv2⟩]
  · intro hw
    unfold collideStep
    rw [if_pos ha, if_neg hnp, if_neg hw]
  · intro hw hl
    unfold collideStep
    rw [if_pos ha, if_neg hnp, if_pos hw, hlat, if_neg hl]

/-- C2 witness: a missile straight ahead of a grounded player inside the
forward window and lateral threshold hits exactly because the player
interval [0, 1.8] overlaps the missile band [0.5, 1.5]. -/
theorem c2_collision_characterization_witness :
    collideStep { dist := 9/8, safeDelta := 1/20, playerPos := ⟨0, 0, 0⟩,
                  isMagnetActive := false, laneCount := 5 } (-5/2)
        { id := 6, type := ObjType.MISSILE, x := 0, y := 1, z := -1, active := true }
      = ({ id := 6, type := ObjType.MISSILE, x := 0, y := 1, z := -1, active := false },
         true,
         [GameEvent.playerHit, GameEvent.particleBurst 0 1 (-1) ("#ff4400")]) := by
  have h := ((c2_collision_characterization
    { dist := 9/8, safeDelta := 1/20, playerPos := ⟨0, 0, 0⟩,
      isMagnetActive := false, laneCount := 5 } (-5/2)
    { id := 6, type := ObjType.MISSILE, x := 0, y := 1, z := -1, active := true }
    rfl (by simp)).1 rfl).mpr
    (by simp [specLateral, specBand]; norm_num)
  simpa using h

lemma foldl_min_le_init (zs : List ℚ) (a : ℚ) : zs.foldl min a ≤ a := by
  induction zs generalizing a with
  | nil => simp
  | cons z zs ih =>
    calc (z :: zs).foldl min a = zs.foldl min (min a z) := rfl
    _ ≤ min a z := ih _
    _ ≤ a := min_le_left _ _

lemma foldl_min_le_mem (zs : List ℚ) (a z : ℚ) : z ∈ zs → zs.foldl min a ≤ z := by
  induction zs generalizing a with
  | nil => intro h; cases h
  | cons w ws ih =>
    intro h
    rcases List.mem_cons.mp h with h1 | h2
    · subst h1
      calc (z :: ws).foldl min a = ws.foldl min (min a z) := rfl
      _ ≤ min a z := foldl_min_le_init _ _
      _ ≤ z := min_le_right _ _
    · exact ih (min a w) h2

lemma foldl_min_mem (zs : List ℚ) (a : ℚ) : zs.foldl min a = a ∨ zs.foldl min a ∈ zs := by
  induction zs generalizing a with
  | nil => left; rfl
  | cons w ws ih =>
    rcases ih (min a w) with h | h
    · rcases min_choice a w with h2 | h2
      · left
        show ws.foldl min (min a w) = a
        rw [h, h2]
      · right
        show ws.foldl min (min a w) ∈ w :: ws
        rw [h, h2]
        exact List.mem_cons_self _ _
    · right
      exact List.mem_cons_of_mem _ h

lemma furthestZ_le (objects : List GameObject) (o : GameObject)
    (h : o ∈ staticObjs objects) : furthestZ objects ≤ o.z := by
  have hz : o.z ∈ (staticObjs objects).map (fun o => o.z) := List.mem_map_of_mem _ h
  cases hm : (staticObjs objects).map (fun o => o.z) with
  | nil => rw [hm] at hz; cases hz
  | cons w ws =>
    have hfz : furthestZ objects = ws.foldl min w := by simp only [furthestZ, hm]
    rw [hm] at hz
    rw [hfz]
    rcases List.mem_cons.mp hz with h1 | h2
    · rw [← h1]
      exact foldl_min_le_init _ _
    · exact foldl_min_le_mem _ _ _ h2

lemma furthestZ_mem (objects : List GameObject) (h : staticObjs objects ≠ []) :
    ∃ o, o ∈ staticObjs objects ∧ furthestZ objects = o.z := by
  cases hm : (staticObjs objects).map (fun o => o.z) with
  | nil => exact absurd (List.map_eq_nil_iff.mp hm) h
  | cons w ws =>
    have hfz : furthestZ objects = ws.foldl min w := by simp only [furthestZ, hm]
    rcases foldl_min_mem ws w with h1 | h1
    · have hw : w ∈ (staticObjs objects).map (fun o => o.z) := by
        rw [hm]; exact List.mem_cons_self _ _
      rcases List.mem_map.mp hw with ⟨o, ho, hoz⟩
      exact ⟨o, ho, by rw [hfz, h1, ← hoz]⟩
    · have hw : ws.foldl min w ∈ (staticObjs objects).map (fun o => o.z) := by
        rw [hm]; exact List.mem_cons_of_mem _ h1
      rcases List.mem_map.mp hw with ⟨o, ho, hoz⟩
      exact ⟨o, ho, by rw [hfz, ← hoz]⟩

lemma spikeRow_z (spawnZ : ℚ) : ∀ (fid : ℕ) (ls : List ℤ) (o : GameObject),
    o ∈ spikeRow spawnZ fid ls → o.z = spawnZ := by
  intro fid ls
  induction ls generalizing fid with
  | nil => intro o h; cases h
  | cons l ls ih =>
    intro o h
    rcases List.mem_cons.mp h with h1 | h2
    · rw [h1]; rfl
    · exact ih (fid + 1) o h2

lemma alienRow_z (spawnZ : ℚ) : ∀ (fid : ℕ) (ls : List ℤ) (o : GameObject),
    o ∈ alienRow spawnZ fid ls → o.z = spawnZ := by
  intro fid ls
  induction ls generalizing fid with
  | nil => intro o h; cases h
  | cons l ls ih =>
    intro o h
    rcases List.mem_cons.mp h with h1 | h2
    · rw [h1]; rfl
    · exact ih (fid + 1) o h2

lemma obstacleRow_z (level : ℕ) (spawnZ : ℚ) : ∀ (fid : ℕ) (ls : List ℤ)
    (rolls : List ℚ) (o : GameObject),
    o ∈ obstacleRow level spawnZ fid ls rolls → o.z = spawnZ := by
  intro fid ls
  induction ls generalizing fid with
  | nil => intro rolls o h; cases h
  | cons l ls ih =>
    intro rolls o h
    unfold obstacleRow at h
    dsimp only at h
    split_ifs at h
    · rcases List.mem_cons.mp h with h1 | h2
      · rw [h1]; rfl
      rcases List.mem_cons.mp h2 with h3 | h4
      · rw [h3]; rfl
      · exact ih (fid + 2) _ o h4
    · rcases List.mem_cons.mp h with h1 | h2
      · rw [h1]; rfl
      rcases List.mem_cons.mp h2 with h3 | h4
      · rw [h3]; rfl
      · exact ih (fid + 2) _ o h4
    · rcases List.mem_cons.mp h with h1 | h2
      · rw [h1]; rfl
      · exact ih (fid + 2) _ o h2

lemma groundRest_z (level : ℕ) (lane : ℤ) (spawnZ : ℚ) (rolls : List ℚ) (fid : ℕ)
    (o : GameObject) (h : o ∈ groundRest level lane spawnZ rolls fid) : o.z = spawnZ := by
  unfold groundRest at h
  dsimp only at h
  split_ifs at h <;>
    (simp only [List.mem_singleton] at h; subst h; rfl)

set_option maxHeartbeats 1000000 in
lemma obstacleBranch_z (level laneCount : ℕ) (spawnZ : ℚ) (rolls : List ℚ) (fid : ℕ)
    (o : GameObject) (h : o ∈ obstacleBranch level laneCount spawnZ rolls fid) :
    o.z = spawnZ := by
  unfold obstacleBranch at h
  dsimp only at h
  split_ifs at h <;>
    first
      | (simp only [List.mem_singleton] at h; subst h; rfl)
      | exact spikeRow_z _ _ _ _ h
      | exact alienRow_z _ _ _ _ h
      | exact obstacleRow_z _ _ _ _ _ _ h

lemma groundBranch_z (level laneCount : ℕ) (spawnZ : ℚ) (rolls : List ℚ) (fid : ℕ)
    (o : GameObject) (h : o ∈ groundBranch level laneCount spawnZ rolls fid) :
    o.z = spawnZ := by
  unfold groundBranch at h
  dsimp only at h
  split_ifs at h <;>
    first
      | (simp only [List.mem_singleton] at h; subst h; rfl)
      | exact groundRest_z _ _ _ _ _ _ h

lemma spawnEntities_z (level laneCount : ℕ) (spawnZ : ℚ) (due : Bool)
    (collected : List ℕ) (rolls : List ℚ) (fid : ℕ) (o : GameObject)
    (h : o ∈ (spawnEntities level laneCount spawnZ due collected rolls fid).1) :
    o.z = spawnZ := by
  unfold spawnEntities at h
  dsimp only at h
  split_ifs at h <;>
    first
      | (simp only [List.mem_singleton] at h; subst h; rfl)
      | exact obstacleBranch_z _ _ _ _ _ _ h
      | exact groundBranch_z _ _ _ _ _ _ h
      | cases h

lemma spawnPhase_objects (level laneCount : ℕ) (speed distT nld : ℚ)
    (collected : List ℕ) (rolls : List ℚ) (fid : ℕ) (objects : List GameObject) :
    (spawnPhase level laneCount speed distT nld collected rolls fid objects).1 =
      if furthestZ objects > -SPAWN_DISTANCE then
        objects ++ (spawnEntities level laneCount
          (min (furthestZ objects - ((getDifficultyConfig level).minGap + speed * 0.3))
            (-SPAWN_DISTANCE))
          (decide (distT ≥ nld)) collected rolls fid).1
      else objects := by
  unfold spawnPhase
  dsimp only
  split_ifs <;> rfl

/-- C3: the spawn horizon is the minimum forward coordinate over the
entities that are neither missiles nor drones, with fallback -20 when no
such entity exists; the spawn phase does nothing unless the horizon is
greater than -120 (minus SPAWN_DISTANCE); and every entity the spawn
phase adds sits exactly at min(horizon - (difficulty minGap +
speed times 0.3), -120). -/
theorem c3_spawn_horizon :
    (∀ objects : List GameObject, staticObjs objects = [] → furthestZ objects = -20)
    ∧ (∀ (objects : List GameObject) (o : GameObject),
        o ∈ staticObjs objects → furthestZ objects ≤ o.z)
    ∧ (∀ objects : List GameObject, staticObjs objects ≠ [] →
        ∃ o, o ∈ staticObjs objects ∧ furthestZ objects = o.z)
    ∧ (∀ (level laneCount : ℕ) (speed distT nld : ℚ) (collected : List ℕ)
        (rolls : List ℚ) (fid : ℕ) (objects : List GameObject),
        ¬ furthestZ objects > -120 →
        spawnPhase level laneCount speed distT nld collected rolls fid objects
          = (objects, nld))
    ∧ (∀ (level laneCount : ℕ) (speed distT nld : ℚ) (collected : List ℕ)
        (rolls : List ℚ) (fid : ℕ) (objects : List GameObject) (o : GameObject),
        o ∈ (spawnPhase level laneCount speed distT nld collected rolls fid objects).1 →
        o ∈ objects ∨
        o.z = min (furthestZ objects - ((getDifficultyConfig level).minGap + speed * 0.3))
                  (-120)) := by
  refine ⟨?_, ?_, ?_, ?_, ?_⟩
  · intro objects h
    simp [furthestZ, h]
  · intro objects o h
    exact furthestZ_le objects o h
  · intro objects h
    exact furthestZ_mem objects h
  · intro level laneCount speed distT nld collected rolls fid objects h
    have h2 : ¬ furthestZ objects > -SPAWN_DISTANCE := by
      rw [show (-SPAWN_DISTANCE : ℚ) = -120 from by norm_num [SPAWN_DISTANCE]]
      exact h
    unfold spawnPhase
    rw [if_neg h2]
  · intro level laneCount speed distT nld collected rolls fid objects o h
    rw [spawnPhase_objects] at h
    split_ifs at h
    · rcases List.mem_append.mp h with h1 | h2
      · exact Or.inl h1
      · right
        have hz := spawnEntities_z _ _ _ _ _ _ _ _ h2
        rw [hz]
        norm_num [SPAWN_DISTANCE]
    · exact Or.inl h

/-- C3 witness: with an empty registry the horizon is the -20 fallback,
and with the horizon at -130 (beyond the spawn-ahead distance) the spawn
phase leaves registry and letter threshold untouched. -/
theorem c3_spawn_horizon_witness :
    furthestZ [] = -20 ∧
    spawnPhase 1 5 (45/2) 0 200 [] [] 7
        [{ id := 0, type := ObjType.OBSTACLE, x := 0, y := 4/5, z := -130, active := true }]
      = ([{ id := 0, type := ObjType.OBSTACLE, x := 0, y := 4/5, z := -130,
            active := true }], 200) := by
  constructor
  · exact c3_spawn_horizon.1 [] rfl
  · exact c3_spawn_horizon.2.2.2.1 1 5 (45/2) 0 200 [] [] 7 _
      (by simp [furthestZ, staticObjs]; norm_num)

/-- C4: on a letter-due spawn tick (cumulative distance past the
threshold, horizon inside the spawn-ahead gate) with the roll stream
rLane, rIdx, ...: if some letter index 0..5 is not in the collected set,
exactly one Letter entity is appended whose target index is picked from
the unclaimed indices by the uniform roll rIdx (never a collected
index), and the next-letter threshold advances by the level-scaled
letter interval; if no index is unclaimed, one Gem with the level base
value is appended instead and the threshold stays. -/
theorem c4_letter_spawn (level laneCount : ℕ) (speed distT nld : ℚ)
    (collected : List ℕ) (rLane rIdx : ℚ) (rest : List ℚ) (fid : ℕ)
    (objects : List GameObject)
    (hfz : furthestZ objects > -120) (hdue : distT ≥ nld)
    (hr0 : 0 ≤ rIdx) (hr1 : rIdx < 1) :
    (((List.range 6).filter (fun i => decide (i ∉ collected)) ≠ []) →
      spawnPhase level laneCount speed distT nld collected (rLane :: rIdx :: rest) fid
          objects
        = (objects ++
            [letterEntity fid (getRandomLane laneCount rLane)
              (((List.range 6).filter (fun i => decide (i ∉ collected))).getD
                (Int.toNat ⌊rIdx *
                  ((((List.range 6).filter (fun i => decide (i ∉ collected))).length : ℕ)
                    : ℚ)⌋) 0)
              (min (furthestZ objects -
                ((getDifficultyConfig level).minGap + speed * 0.3)) (-120))],
           nld + getLetterInterval level)
      ∧ (((List.range 6).filter (fun i => decide (i ∉ collected))).getD
            (Int.toNat ⌊rIdx *
              ((((List.range 6).filter (fun i => decide (i ∉ collected))).length : ℕ)
                : ℚ)⌋) 0) ∉ collected)
    ∧ (((List.range 6).filter (fun i => decide (i ∉ collected)) = []) →
      spawnPhase level laneCount speed distT nld collected (rLane :: rIdx :: rest) fid
          objects
        = (objects ++
            [groundGem fid (getRandomLane laneCount rLane)
              (min (furthestZ objects -
                ((getDifficultyConfig level).minGap + speed * 0.3)) (-120))
              (getDifficultyConfig level).gemBaseValue],
           nld)) := by
  have hgate : furthestZ objects > -SPAWN_DISTANCE := by
    rw [show (-SPAWN_DISTANCE : ℚ) = -120 from by norm_num [SPAWN_DISTANCE]]
    exact hfz
  have hSD : (-SPAWN_DISTANCE : ℚ) = -120 := by norm_num [SPAWN_DISTANCE]
  constructor
  · intro hav
    have hlen : 0 < ((List.range 6).filter (fun i => decide (i ∉ collected))).length :=
      List.length_pos.mpr hav
    have hidx : Int.toNat ⌊rIdx *
        ((((List.range 6).filter (fun i => decide (i ∉ collected))).length : ℕ) : ℚ)⌋
        < ((List.range 6).filter (fun i => decide (i ∉ collected))).length := by
      have h1 : rIdx *
          ((((List.range 6).filter (fun i => decide (i ∉ collected))).length : ℕ) : ℚ)
          < ((((List.range 6).filter (fun i => decide (i ∉ collected))).length : ℕ) : ℚ) := by
        calc rIdx * _ < 1 * _ := by
              apply mul_lt_mul_of_pos_right hr1
              exact_mod_cast hlen
        _ = _ := one_mul _
      have h2 : ⌊rIdx *
          ((((List.range 6).filter (fun i => decide (i ∉ collected))).length : ℕ) : ℚ)⌋
          < (((List.range 6).filter (fun i => decide (i ∉ collected))).length : ℤ) := by
        apply Int.floor_lt.mpr
        exact_mod_cast h1
      omega
    constructor
    · unfold spawnPhase spawnEntities
      dsimp only
      rw [if_pos hgate, if_pos (decide_eq_true hdue), if_pos hlen]
      rw [hSD]
      simp [rollHead, rollTail]
    · have hmem : (((List.range 6).filter (fun i => decide (i ∉ collected))).getD
          (Int.toNat ⌊rIdx *
            ((((List.range 6).filter (fun i => decide (i ∉ collected))).length : ℕ)
              : ℚ)⌋) 0)
          ∈ (List.range 6).filter (fun i => decide (i ∉ collected)) := by
        rw [List.getD_eq_getElem _ _ hidx]
        exact List.getElem_mem _
      have h3 := (List.mem_filter.mp hmem).2
      simpa using h3
  · intro hav
    have hlen : ¬ 0 < ((List.range 6).filter (fun i => decide (i ∉ collected))).length := by
      rw [hav]
      simp
    unfold spawnPhase spawnEntities
    dsimp only
    rw [if_pos hgate, if_pos (decide_eq_true hdue), if_neg hlen]
    rw [hSD]
    simp [rollHead, rollTail]

/-- C4 witness: at level 1, collected indices 0 and 2, roll 1/2 for the
index, the pick lands on index 4 (letter N), which is not collected, one
letter is appended at the spawn point -120 and the threshold advances by
the level-1 interval 200. -/
theorem c4_letter_spawn_witness :
    spawnPhase 1 5 (45/2) 250 200 [0, 2] (1/2 :: 1/2 :: []) 7
        [{ id := 0, type := ObjType.OBSTACLE, x := 0, y := 4/5, z := -30, active := true }]
      = ([{ id := 0, type := ObjType.OBSTACLE, x := 0, y := 4/5, z := -30, active := true },
          letterEntity 7 0 4 (-120)], 400)
    ∧ (4 : ℕ) ∉ ([0, 2] : List ℕ) := by
  have h := (c4_letter_spawn 1 5 (45/2) 250 200 [0, 2] (1/2) (1/2) [] 7
      [{ id := 0, type := ObjType.OBSTACLE, x := 0, y := 4/5, z := -30, active := true }]
      (by simp [furthestZ, staticObjs]; norm_num) (by norm_num) (by norm_num)
      (by norm_num)).1 (by decide)
  constructor
  · rw [h.1]
    simp [letterEntity, getRandomLane, furthestZ, staticObjs, getDifficultyConfig,
      getLetterInterval, BASE_LETTER_INTERVAL, LANE_WIDTH, min_def]
    norm_num [List.range_succ, letterTarget, geminiColors]
    decide
  · decide

lemma fireStep_missiles (fid : ℕ) (o : GameObject) :
    ∀ m ∈ (fireStep fid o).2.1, m.type = ObjType.MISSILE ∧ m.active = true ∧
      m.z = (fireStep fid o).1.z + 2 := by
  unfold fireStep
  split_ifs <;> simp [missileEntity]

lemma magnetStep_not_gem (ctx : Ctx) (o : GameObject) (h : o.type ≠ ObjType.GEM) :
    magnetStep ctx o = o := by
  unfold magnetStep
  rw [if_neg (by simp [h])]

/-- C10: a missile created by turret or alien fire during tick T is
pushed onto newSpawns with forward coordinate exactly firer + 2; the
events of the tick are exactly those of the per-entity loop over the
tick-start registry, so the new missile is never collision-checked and
cannot emit damage during tick T; the missile is appended to the
registry after the loop (it is in the tick output); and a missile that
IS in the registry at tick start advances by dist + MISSILE_SPEED times
the clamped delta. -/
theorem c10_missile_deferred :
    (∀ (ctx : Ctx) (fid : ℕ) (o : GameObject),
      ∀ m ∈ (processObj ctx fid o).2.2.1,
        m.type = ObjType.MISSILE ∧ m.active = true ∧
        m.z = (processObj ctx fid o).1.z + 2)
    ∧ (∀ (env : TickEnv) (st : TickState), env.status = GameStatus.PLAYING →
        (tick env st).2 = (processList (tickCtx env) env.freshId st.objects).2.2)
    ∧ (∀ (env : TickEnv) (st : TickState), env.status = GameStatus.PLAYING →
        ∀ m ∈ (processList (tickCtx env) env.freshId st.objects).2.1,
          m ∈ (tick env st).1.objects)
    ∧ (∀ (ctx : Ctx) (fid : ℕ) (m : GameObject), m.type = ObjType.MISSILE →
        (processObj ctx fid m).1.z = m.z + ctx.dist + MISSILE_SPEED * ctx.safeDelta) := by
  refine ⟨?_, ?_, ?_, ?_⟩
  · intro ctx fid o m hm
    unfold processObj at hm ⊢
    dsimp only at hm ⊢
    have h := fireStep_missiles fid _ m hm
    refine ⟨h.1, h.2.1, ?_⟩
    rw [(collideStep_fst_pres _ _ _).2.2.2.2.1]
    exact h.2.2
  · intro env st h
    unfold tick
    rw [if_pos h]
  · intro env st h m hm
    unfold tick
    rw [if_pos h]
    dsimp only
    rw [spawnPhase_objects]
    split_ifs
    · exact List.mem_append_left _ (List.mem_append_right _ hm)
    · exact List.mem_append_right _ hm
  · intro ctx fid m hm
    unfold processObj
    dsimp only
    rw [(collideStep_fst_pres _ _ _).2.2.2.2.1, (fireStep_fst_pres _ _).2.2.2.2.1,
        (barrierStep_pres _ _).2.2.2.1, (droneStep_pres _ _).2.2.2.1,
        magnetStep_not_gem _ _ (by simp [hm])]
    dsimp only
    rw [hm]
    unfold moveAmountFor
    rw [if_pos rfl]
    ring

/-- C10 witness: with one ready turret in the registry and the player
away from it, the events of the tick come only from the loop over the
tick-start registry, and a registry missile advances by the world
distance plus the missile extra speed. -/
def c10Env : TickEnv :=
  { status := GameStatus.PLAYING, speed := 45/2, delta := 1/20,
    playerRef := some ⟨0, 0, 0⟩, magnetActive := false, laneCount := 5, level := 6,
    collectedLetters := [], rolls := [], freshId := 100 }

def c10St : TickState :=
  { objects := [{ id := 0, type := ObjType.TURRET, x := 0, y := 1/5, z := -79,
                  active := true, hasFired := some false }],
    distanceTraveled := 0, nextLetterDistance := 200 }

theorem c10_missile_deferred_witness :
    (tick c10Env c10St).2 = (processList (tickCtx c10Env) 100 c10St.objects).2.2
    ∧ (processObj { dist := 9/8, safeDelta := 1/20, playerPos := ⟨0, 0, 0⟩,
                    isMagnetActive := false, laneCount := 5 } 100
        { id := 9, type := ObjType.MISSILE, x := 0, y := 1, z := -60, active := true }).1.z
      = -60 + 9/8 + MISSILE_SPEED * (1/20) := by
  constructor
  · exact c10_missile_deferred.2.1 c10Env c10St rfl
  · exact c10_missile_deferred.2.2.2 _ 100 _ rfl

end BaseRunner
